import Mathlib

/-
Shallow embedding of the authentication and session-lifecycle subsystem of
the play_sphere backend.

Embedded source files:
  * src/src/controllers/user.controllers.js
      (generateAccessAndRefreshToken, loginUser, logoutUser, refreshAccessToken)
  * src/src/middlewares/multer.middlewares.js (second module: verifyJWT)
  * src/unnamed/part_002 (the mongoose User schema with
      isPasswordCorrect, generateAccessToken, generateRefreshToken)
  * src/src/middlewares/error.middlewares.js + src/src/utils/asyncHandler.js
      (a thrown ApiError(status, msg) becomes the HTTP response with that
       status; embedded as an `Except ApiErr` result)

Modelling conventions:
  * JWT strings are modelled as an inductive `Token`: a signed token is the
    (payload, secret, iat, exp) quadruple (the real encoding is injective on
    these), plus a `malformed` constructor for undecodable strings.
  * MongoDB documents for users live in a `List UserRec`; `findById` /
    `findOne` are `List.find?`, and `save` rewrites the document with the
    matching id.
  * Time is an abstract `Nat` clock passed to every operation; `jsonwebtoken`
    treats a token as expired when `exp <= now`.
  * bcrypt is an injectable hash/verify capability; a deterministic stand-in
    is used, which is faithful to everything the controllers observe
    (compare succeeds exactly on the registered password).
  * JS `undefined`/missing string fields are `Option.none`; the only falsy
    non-missing string is `""`.
-/

namespace PlaySphere

/-- Claim set carried by a JWT.  Access tokens embed id/email/username/
fullname (user.models generateAccessToken); refresh tokens embed the id only
(generateRefreshToken), so the profile fields are optional. -/
structure Claims where
  uid : Nat
  email : Option String
  username : Option String
  fullname : Option String
deriving DecidableEq, Repr

/-- A JWT string.  `signed payload secret iat exp` stands for the compact
serialization of that header/payload signed with `secret` (the encoding is
injective on these fields); `malformed` stands for any string that does not
decode as a JWT at all. -/
inductive Token where
  | signed (payload : Claims) (secret : String) (iat : Nat) (exp : Nat)
  | malformed (raw : String)
deriving DecidableEq, Repr

/-- The failure cases of `jsonwebtoken.verify`. -/
inductive JwtError where
  | malformed
  | badSignature
  | expired
deriving DecidableEq, Repr

/-- `jwt.verify(token, secret)` at clock `now`: decodes, checks the
signature, then checks expiry (`jsonwebtoken` rejects when `now >= exp`). -/
def jwtVerify (tok : Token) (secret : String) (now : Nat) : Except JwtError Claims :=
  match tok with
  | .malformed _ => .error .malformed
  | .signed payload s _ exp =>
    if s ≠ secret then .error .badSignature
    else if exp ≤ now then .error .expired
    else .ok payload

/-- Process environment: the two independent signing secrets and the two
TTLs (ACCESS_TOKEN_SECRET / REFRESH_TOKEN_SECRET /
ACCESS_TOKEN_EXPIRY / REFRESH_TOKEN_EXPIRY). -/
structure Env where
  accessTokenSecret : String
  refreshTokenSecret : String
  accessTokenExpiry : Nat
  refreshTokenExpiry : Nat
deriving DecidableEq, Repr

/-- Deterministic stand-in for the bcrypt hash capability
(user schema pre-save hook `bcrypt.hash(password, 12)`). -/
def bcryptHash (plain : String) : String := String.append "bcrypt$12$" plain

/-- `bcrypt.compare(password, storedHash)` — the user schema method
`isPasswordCorrect`. -/
def bcryptCompare (plain stored : String) : Bool := stored == bcryptHash plain

/-- A user document (the mongoose `User` schema, restricted to the fields
the authentication subsystem reads or writes; avatar/coverImage/watchHistory
are never consulted by it).  `password` holds the bcrypt hash; `refreshToken`
is the single stored refresh-token slot. -/
structure UserRec where
  uid : Nat
  username : String
  email : String
  fullname : String
  password : String
  refreshToken : Option Token
deriving DecidableEq, Repr

/-- The credential store: the users collection. -/
abbrev Store := List UserRec

/-- `User.findById(uid)`. -/
def findById (store : Store) (uid : Nat) : Option UserRec :=
  store.find? (fun u => u.uid == uid)

/-- `user.save()`: write back the in-memory document `snap` over the stored
document with the same id. -/
def saveUser (store : Store) (snap : UserRec) : Store :=
  store.map (fun v => if v.uid == snap.uid then snap else v)

/-- `User.findByIdAndUpdate(uid, { $set: { refreshToken: v } })` where the
JS value `v` may be `undefined` (`none`).  Mongoose (≥ 6) strips keys whose
value is `undefined` out of update documents before sending them (the old
`omitUndefined` behaviour is now unconditional), so
`$set: { refreshToken: undefined }` is the empty update: the stored record
is left unchanged. -/
def mongooseSetRefreshToken (store : Store) (uid : Nat) (v : Option Token) : Store :=
  match v with
  | none => store
  | some t =>
    match findById store uid with
    | none => store
    | some u => saveUser store { u with refreshToken := some t }

/-- `ApiError(statusCode, message)` — what the error middleware turns into
the HTTP response status/message. -/
structure ApiErr where
  statusCode : Nat
  message : String
deriving DecidableEq, Repr

/-- `user.generateAccessToken()` (user schema): signs
`{_id, email, username, fullname}` with ACCESS_TOKEN_SECRET and the access
TTL. -/
def genAccessToken (env : Env) (now : Nat) (u : UserRec) : Token :=
  .signed ⟨u.uid, some u.email, some u.username, some u.fullname⟩
    env.accessTokenSecret now (now + env.accessTokenExpiry)

/-- `user.generateRefreshToken()` (user schema): signs `{_id}` with
REFRESH_TOKEN_SECRET and the refresh TTL. -/
def genRefreshToken (env : Env) (now : Nat) (u : UserRec) : Token :=
  .signed ⟨u.uid, none, none, none⟩
    env.refreshTokenSecret now (now + env.refreshTokenExpiry)

/-- `generateAccessAndRefreshToken(userId)`
(user.controllers.js lines 14–38): findById; if absent the inner
ApiError(404) is caught by the function's own catch and replaced by an
ApiError(500); otherwise generate both tokens, store the refresh token in
the user document and save it. -/
def generateAccessAndRefreshToken (env : Env) (now : Nat) (store : Store)
    (uid : Nat) : Except ApiErr (Token × Token × Store) :=
  match findById store uid with
  | none =>
    .error ⟨500, "Something went wrong while generating access and refresh tokens"⟩
  | some u =>
    let accessToken := genAccessToken env now u
    let refreshToken := genRefreshToken env now u
    .ok (accessToken, refreshToken,
      saveUser store { u with refreshToken := some refreshToken })

/-- JS string truthiness for an optional request field: missing/undefined
and the empty string are falsy. -/
def truthy : Option String → Bool
  | none => false
  | some s => !(s == "")

/-- One `$or` clause `{field: v}` of the login query, under mongoose query
casting: a key whose value is `undefined` is stripped from the filter, so a
clause built from a missing field becomes `{}` and matches every
document. -/
def clauseMatches (v : Option String) (field : UserRec → String) (u : UserRec) : Bool :=
  match v with
  | none => true
  | some s => field u == s

/-- The login lookup filter `{ $or: [{ username }, { email }] }`
(user.controllers.js lines 151–153). -/
def loginQueryMatches (username email : Option String) (u : UserRec) : Bool :=
  clauseMatches username (fun v => v.username) u
    || clauseMatches email (fun v => v.email) u

/-- The login request body `{email, username, password}`. -/
structure LoginReq where
  username : Option String
  email : Option String
  password : Option String
deriving DecidableEq, Repr

/-- Identity with the sensitive fields excluded — the result of
`.select("-password -refreshToken")`. -/
structure PublicUser where
  uid : Nat
  username : String
  email : String
  fullname : String
deriving DecidableEq, Repr

/-- Projection performed by `.select("-password -refreshToken")`. -/
def publicOf (u : UserRec) : PublicUser :=
  ⟨u.uid, u.username, u.email, u.fullname⟩

/-- The 200-response payload of loginUser:
`{ user: loggedInUser, accessToken, refreshToken }`. -/
structure LoginOut where
  user : PublicUser
  accessToken : Token
  refreshToken : Token
deriving DecidableEq, Repr

/-- `loginUser` (user.controllers.js lines 142–192).  Returns the response
(success payload or ApiError) together with the store as left by the
request. -/
def loginUser (env : Env) (now : Nat) (store : Store) (req : LoginReq) :
    Except ApiErr LoginOut × Store :=
  if !(truthy req.email) || !(truthy req.password) then
    (.error ⟨400, "Email is required"⟩, store)
  else
    match store.find? (loginQueryMatches req.username req.email) with
    | none => (.error ⟨404, "User not found"⟩, store)
    | some u =>
      if !(bcryptCompare (req.password.getD "") u.password) then
        (.error ⟨400, "Invalid user credentials"⟩, store)
      else
        match generateAccessAndRefreshToken env now store u.uid with
        | .error e => (.error e, store)
        | .ok (accessToken, refreshToken, store') =>
          match findById store' u.uid with
          | none => (.error ⟨500, "Could not login user"⟩, store')
          | some u' => (.ok ⟨publicOf u', accessToken, refreshToken⟩, store')

/-- The inputs `refreshAccessToken` reads: the `refreshToken` cookie, and
the request-body fields `refreshToken` (present on the wire but never read
by the handler) and `refreshAccessToken`. -/
structure RefreshReq where
  cookieRefreshToken : Option Token
  bodyRefreshToken : Option Token
  bodyRefreshAccessToken : Option Token
deriving DecidableEq, Repr

/-- Line 234: `req.cookies.refreshToken || req.body.refreshAccessToken`.
Note the body fallback reads the field named `refreshAccessToken`, not
`refreshToken`. -/
def incomingRefreshToken (req : RefreshReq) : Option Token :=
  match req.cookieRefreshToken with
  | some t => some t
  | none => req.bodyRefreshAccessToken

/-- The 200-response payload of refreshAccessToken:
`{ accessToken, refreshToken: newRefreshToken }`. -/
structure RefreshOut where
  accessToken : Token
  refreshToken : Token
deriving DecidableEq, Repr

/-- The distinct ways the body of refreshAccessToken's `try` block can
throw.  In the source, `userNotFound` and `tokenMismatch` are thrown as
`ApiError(401, "Invalid refresh token")`, and `jwt` failures are
`jsonwebtoken` exceptions, but all of them land in the same `catch`. -/
inductive RefreshFailure where
  | noSecret
  | jwt (e : JwtError)
  | userNotFound
  | tokenMismatch
  | genError
deriving DecidableEq, Repr

/-- The validation prefix of refreshAccessToken's `try` block
(lines 246–267): secret configured, `jwt.verify` against
REFRESH_TOKEN_SECRET, `User.findById(decodedToken?._id)`, and the
stored-token equality check
`incomingRefreshToken !== user?.refreshToken`. -/
def refreshValidate (env : Env) (now : Nat) (store : Store) (tok : Token) :
    Except RefreshFailure UserRec :=
  if env.refreshTokenSecret == "" then .error .noSecret
  else
    match jwtVerify tok env.refreshTokenSecret now with
    | .error e => .error (.jwt e)
    | .ok payload =>
      match findById store payload.uid with
      | none => .error .userNotFound
      | some u =>
        if some tok ≠ u.refreshToken then .error .tokenMismatch
        else .ok u

/-- The whole `try` block of refreshAccessToken (lines 241–283): validate,
then issue and store a brand-new pair via generateAccessAndRefreshToken. -/
def refreshTry (env : Env) (now : Nat) (store : Store) (tok : Token) :
    Except RefreshFailure (RefreshOut × Store) :=
  match refreshValidate env now store tok with
  | .error e => .error e
  | .ok u =>
    match generateAccessAndRefreshToken env now store u.uid with
    | .error _ => .error .genError
    | .ok (accessToken, newRefreshToken, store') =>
      .ok (⟨accessToken, newRefreshToken⟩, store')

/-- `refreshAccessToken` (user.controllers.js lines 232–288).  A missing
token throws ApiError(401) before the `try`; any throw inside the `try` —
including the handler's own ApiError(401)s — is caught and replaced by
ApiError(500, "Something went wrong while refreshing access token"). -/
def refreshAccessToken (env : Env) (now : Nat) (store : Store)
    (req : RefreshReq) : Except ApiErr RefreshOut × Store :=
  match incomingRefreshToken req with
  | none => (.error ⟨401, "Refresh token is required"⟩, store)
  | some tok =>
    match refreshTry env now store tok with
    | .ok (out, store') => (.ok out, store')
    | .error _ =>
      (.error ⟨500, "Something went wrong while refreshing access token"⟩, store)

/-- `logoutUser` (user.controllers.js lines 199–224):
`findByIdAndUpdate(req.user._id, { $set: { refreshToken: undefined } })`,
then clear both cookies and respond 200. -/
def logoutUser (store : Store) (uid : Nat) : Except ApiErr Unit × Store :=
  (.ok (), mongooseSetRefreshToken store uid none)

/-- The inputs verifyJWT reads: the `accessToken` cookie and the
`Authorization: Bearer <token>` header (already stripped of the
`Bearer ` prefix). -/
structure AuthReq where
  cookieAccessToken : Option Token
  bearerToken : Option Token
deriving DecidableEq, Repr

/-- The ways the `try` block of verifyJWT can throw; the inner
`ApiError(401, "User not found")` is itself caught by the same `catch`. -/
inductive AuthFailure where
  | jwt (e : JwtError)
  | userNotFound
deriving DecidableEq, Repr

/-- The `try` block of verifyJWT: `jwt.verify` against
ACCESS_TOKEN_SECRET, then
`User.findById(decodedToken?._id).select("-password -refreshToken")`. -/
def verifyJWTTry (env : Env) (now : Nat) (store : Store) (tok : Token) :
    Except AuthFailure PublicUser :=
  match jwtVerify tok env.accessTokenSecret now with
  | .error e => .error (.jwt e)
  | .ok payload =>
    match findById store payload.uid with
    | none => .error .userNotFound
    | some u => .ok (publicOf u)

/-- `verifyJWT` (auth middleware, multer.middlewares.js second module,
lines 66–103): token from the `accessToken` cookie or the Authorization
header; 401 if absent; any throw inside the `try` is caught and replaced by
ApiError(401, "Not authorized, token failed").  On success the identity
(with password and refreshToken excluded) is attached to the request. -/
def verifyJWT (env : Env) (now : Nat) (store : Store) (req : AuthReq) :
    Except ApiErr PublicUser :=
  match (match req.cookieAccessToken with
         | some t => some t
         | none => req.bearerToken) with
  | none => .error ⟨401, "Not authorized, no token"⟩
  | some tok =>
    match verifyJWTTry env now store tok with
    | .ok pu => .ok pu
    | .error _ => .error ⟨401, "Not authorized, token failed"⟩

/-- Did an `Except` computation succeed? -/
def isOk : Except ε α → Bool
  | .ok _ => true
  | .error _ => false

/-
Interleaving model for two concurrent RefreshSession requests.

A refresh request touches the store in two separate awaited database
operations: first the validation read (findById + stored-token equality,
`refreshValidate`), and later — inside generateAccessAndRefreshToken — the
write `user.save()` of the freshly generated refresh token.  Between the two
the request holds no lock and performs no conditional update, so another
request can be scheduled in between.  Each process below runs the same
embedded code, split at that await boundary; `clock` is the process-local
time at which its tokens are verified and issued.
-/

deriving instance DecidableEq for Except

/-- Program counter of one in-flight refreshAccessToken call. -/
inductive RacePhase where
  | validate
  | commit (uid : Nat)
  | done (r : Except RefreshFailure RefreshOut)
deriving DecidableEq, Repr

/-- One in-flight refreshAccessToken call: the token it presented, its
clock reading, and where it stands. -/
structure RaceProc where
  tok : Token
  clock : Nat
  phase : RacePhase
deriving DecidableEq, Repr

/-- Run one atomic database step of one process against the current
store: the validation read, or the generate-and-save commit. -/
def raceStepProc (env : PlaySphere.Env) (store : Store) (p : RaceProc) :
    Store × RaceProc :=
  match p.phase with
  | .validate =>
    match refreshValidate env p.clock store p.tok with
    | .error e => (store, { p with phase := .done (.error e) })
    | .ok u => (store, { p with phase := .commit u.uid })
  | .commit uid =>
    match generateAccessAndRefreshToken env p.clock store uid with
    | .error _ => (store, { p with phase := .done (.error .genError) })
    | .ok (accessToken, newRefreshToken, store') =>
      (store', { p with phase := .done (.ok ⟨accessToken, newRefreshToken⟩) })
  | .done _ => (store, p)

/-- Two racing refreshAccessToken calls over one shared store. -/
structure RaceState where
  store : Store
  p1 : RaceProc
  p2 : RaceProc
deriving DecidableEq, Repr

/-- Scheduler step: `true` runs one step of process 1, `false` one step of
process 2. -/
def raceStep (env : PlaySphere.Env) (s : RaceState) (pick : Bool) : RaceState :=
  if pick then
    match raceStepProc env s.store s.p1 with
    | (store', p') => { s with store := store', p1 := p' }
  else
    match raceStepProc env s.store s.p2 with
    | (store', p') => { s with store := store', p2 := p' }

/-- Run a whole schedule. -/
def runRace (env : PlaySphere.Env) (s : RaceState) : List Bool → RaceState
  | [] => s
  | b :: bs => runRace env (raceStep env s b) bs

/-- Did this in-flight call finish with a 200 response? -/
def raceSucceeded (p : RaceProc) : Bool :=
  match p.phase with
  | .done (.ok _) => true
  | _ => false

/-! Concrete fixtures used by the counterexamples and witnesses. -/

/-- A concrete environment. -/
def demoEnv : Env :=
  { accessTokenSecret := "access-secret"
    refreshTokenSecret := "refresh-secret"
    accessTokenExpiry := 900
    refreshTokenExpiry := 864000 }

/-- A registered user, before any session state. -/
def aliceBase : UserRec :=
  { uid := 1
    username := "alice"
    email := "alice@example.com"
    fullname := "Alice Singh"
    password := bcryptHash "Secret123*"
    refreshToken := none }

/-- The refresh token a login at time 0 stored for alice. -/
def aliceRefreshToken : Token := genRefreshToken demoEnv 0 aliceBase

/-- Alice's credential record with the stored refresh-token slot. -/
def alice : UserRec := { aliceBase with refreshToken := some aliceRefreshToken }

/-- A one-user credential store. -/
def demoStore : Store := [alice]

/-! Inversion and store lemmas. -/

theorem findById_some_uid {store : Store} {uid : Nat} {u : UserRec}
    (h : findById store uid = some u) : u.uid = uid := by
  have hp := List.find?_some h
  simpa using hp

theorem jwtVerify_ok_inv {tok : Token} {secret : String} {now : Nat} {c : Claims}
    (h : jwtVerify tok secret now = .ok c) :
    ∃ iat expn, tok = .signed c secret iat expn ∧ now < expn := by
  cases tok with
  | malformed s => simp [jwtVerify] at h
  | signed payload s iat expn =>
    by_cases hs : s = secret
    · subst hs
      by_cases he : expn ≤ now
      · simp [jwtVerify, he] at h
      · simp [jwtVerify, he] at h
        exact ⟨iat, expn, by rw [h], Nat.lt_of_not_le he⟩
    · simp [jwtVerify, hs] at h

theorem findById_saveUser_self {store : Store} {snap w : UserRec}
    (h : findById store snap.uid = some w) :
    findById (saveUser store snap) snap.uid = some snap := by
  induction store with
  | nil => simp [findById] at h
  | cons v vs ih =>
    by_cases hv : (v.uid == snap.uid) = true
    · simp only [saveUser, List.map_cons, hv, if_true, findById]
      rw [List.find?_cons_of_pos _ (by simp)]
    · unfold findById at h
      rw [List.find?_cons_of_neg _ (by simpa using hv)] at h
      simp only [saveUser, List.map_cons, if_neg hv, findById]
      rw [List.find?_cons_of_neg _ (by simpa using hv)]
      exact ih h

theorem refreshValidate_ok_inv {env : Env} {now : Nat} {store : Store}
    {tok : Token} {u : UserRec}
    (h : refreshValidate env now store tok = .ok u) :
    ∃ payload iat expn, tok = .signed payload env.refreshTokenSecret iat expn
      ∧ now < expn
      ∧ findById store payload.uid = some u
      ∧ u.refreshToken = some tok := by
  unfold refreshValidate at h
  split at h
  · exact absurd h (by simp)
  · split at h
    next e heq => exact absurd h (by simp)
    next payload heq =>
      obtain ⟨iat, expn, htok, hlt⟩ := jwtVerify_ok_inv heq
      split at h
      next hf => exact absurd h (by simp)
      next v hf =>
        split at h
        next hne => exact absurd h (by simp)
        next hne =>
          simp only [Except.ok.injEq] at h
          have hm : some tok = v.refreshToken := by
            by_contra hc
            exact hne hc
          subst h
          exact ⟨payload, iat, expn, htok, hlt, hf, hm.symm⟩

theorem refreshTry_ok_inv {env : Env} {now : Nat} {store : Store} {tok : Token}
    {out : RefreshOut} {store' : Store}
    (h : refreshTry env now store tok = .ok (out, store')) :
    ∃ payload iat expn u, tok = .signed payload env.refreshTokenSecret iat expn
      ∧ now < expn
      ∧ findById store payload.uid = some u
      ∧ u.refreshToken = some tok
      ∧ out = ⟨genAccessToken env now u, genRefreshToken env now u⟩
      ∧ store' = saveUser store { u with refreshToken := some (genRefreshToken env now u) } := by
  unfold refreshTry at h
  split at h
  next e heq => exact absurd h (by simp)
  next u hval =>
    obtain ⟨payload, iat, expn, htok, hlt, hf, hstored⟩ := refreshValidate_ok_inv hval
    have huid : u.uid = payload.uid := findById_some_uid hf
    have hid : findById store u.uid = some u := by rw [huid]; exact hf
    unfold generateAccessAndRefreshToken at h
    rw [hid] at h
    simp only [Except.ok.injEq, Prod.mk.injEq] at h
    exact ⟨payload, iat, expn, u, htok, hlt, hf, hstored, h.1.symm, h.2.symm⟩

theorem loginUser_ok_of {env : Env} {now : Nat} {store : Store}
    {un : Option String} {em pw : String} {u : UserRec}
    (hem : em ≠ "") (hpw : pw ≠ "")
    (hfind : store.find? (loginQueryMatches un (some em)) = some u)
    (hid : findById store u.uid = some u)
    (hgood : bcryptCompare pw u.password = true) :
    loginUser env now store ⟨un, some em, some pw⟩ =
      (.ok ⟨publicOf u, genAccessToken env now u, genRefreshToken env now u⟩,
       saveUser store { u with refreshToken := some (genRefreshToken env now u) }) := by
  have he : truthy (some em) = true := by simp [truthy, hem]
  have hp : truthy (some pw) = true := by simp [truthy, hpw]
  have hsnap : findById
      (saveUser store { u with refreshToken := some (genRefreshToken env now u) })
      ({ u with refreshToken := some (genRefreshToken env now u) } : UserRec).uid
        = some { u with refreshToken := some (genRefreshToken env now u) } :=
    findById_saveUser_self (w := u) hid
  simp only [loginUser, he, hp, Bool.not_true, Bool.or_self, Bool.false_eq_true,
    if_false, hfind, Option.getD_some, hgood, generateAccessAndRefreshToken, hid,
    ite_false]
  rw [show (({ u with refreshToken := some (genRefreshToken env now u) } : UserRec).uid)
        = u.uid from rfl] at hsnap
  rw [hsnap]
  rfl

theorem loginUser_ok_user_inv {env : Env} {now : Nat} {store : Store}
    {req : LoginReq} {out : LoginOut} {store' : Store}
    (h : loginUser env now store req = (.ok out, store')) :
    ∃ v, findById store' out.user.uid = some v ∧ out.user = publicOf v := by
  unfold loginUser at h
  split at h
  · exact absurd h (by simp)
  · split at h
    next hf => exact absurd h (by simp)
    next u hfind =>
      split at h
      · exact absurd h (by simp)
      · split at h
        next e hgen => exact absurd h (by simp)
        next a r st' hgen =>
          split at h
          next hnone => exact absurd h (by simp)
          next u' hfound =>
            simp only [Prod.mk.injEq, Except.ok.injEq] at h
            obtain ⟨h1, h2⟩ := h
            have huid' : u'.uid = u.uid := findById_some_uid hfound
            refine ⟨u', ?_, by rw [← h1]⟩
            rw [← h1, ← h2]
            show findById st' (publicOf u').uid = some u'
            have : (publicOf u').uid = u.uid := huid'
            rw [this]
            exact hfound

theorem verifyJWT_ok_inv {env : Env} {now : Nat} {store : Store}
    {req : AuthReq} {p : PublicUser}
    (h : verifyJWT env now store req = .ok p) :
    ∃ v, findById store p.uid = some v ∧ p = publicOf v := by
  unfold verifyJWT at h
  split at h
  · exact absurd h (by simp)
  · split at h
    next pu htry =>
      simp only [Except.ok.injEq] at h
      subst h
      unfold verifyJWTTry at htry
      split at htry
      next e heq => exact absurd htry (by simp)
      next payload heq =>
        split at htry
        next hf => exact absurd htry (by simp)
        next v hf =>
          simp only [Except.ok.injEq] at htry
          have hvid : v.uid = payload.uid := findById_some_uid hf
          refine ⟨v, ?_, htry.symm⟩
          rw [← htry]
          show findById store (publicOf v).uid = some v
          have : (publicOf v).uid = payload.uid := hvid
          rw [this]
          exact hf
    next e htry => exact absurd h (by simp)

/-- Two RefreshSession calls racing on the same stored refresh token:
both present alice's current token, process 1 at clock 5 and process 2 at
clock 6, scheduled validate₁, validate₂, commit₁, commit₂. -/
def raceInit : RaceState :=
  ⟨demoStore, ⟨aliceRefreshToken, 5, .validate⟩, ⟨aliceRefreshToken, 6, .validate⟩⟩

/-- The final state of the interleaving validate₁, validate₂, commit₁,
commit₂. -/
def raceFinal : RaceState := runRace demoEnv raceInit [true, false, true, false]

/-! The claims. -/

/-- C1: the spec says every RefreshSession whose presented refresh token
fails validation (expired, malformed, wrong secret, missing user, or not
equal to the stored token) fails with status 401.  In the code every such
failure is raised inside the handler's `try` block, whose `catch` replaces
it with ApiError(500, ...), so the response status is 500, not 401; only a
missing token yields 401.  This theorem evaluates the code on any
validation failure: the status is 500. -/
theorem refresh_validation_failure_returns_500
    (env : Env) (now : Nat) (store : Store) (req : RefreshReq) (tok : Token)
    (hin : incomingRefreshToken req = some tok)
    (hfail : isOk (refreshTry env now store tok) = false) :
    refreshAccessToken env now store req =
      (.error ⟨500, "Something went wrong while refreshing access token"⟩, store) := by
  unfold refreshAccessToken
  rw [hin]
  cases hr : refreshTry env now store tok with
  | ok v => rw [hr] at hfail; simp [isOk] at hfail
  | error e => simp [hr]

/-- Witness for C1: alice's stored refresh token presented at clock 864000,
the instant it expires; the response is 500, not the claimed 401. -/
theorem refresh_validation_failure_returns_500_witness :
    incomingRefreshToken ⟨some aliceRefreshToken, none, none⟩ = some aliceRefreshToken
    ∧ isOk (refreshTry demoEnv 864000 demoStore aliceRefreshToken) = false
    ∧ refreshAccessToken demoEnv 864000 demoStore ⟨some aliceRefreshToken, none, none⟩
        = (.error ⟨500, "Something went wrong while refreshing access token"⟩, demoStore) :=
  ⟨rfl, by decide,
    refresh_validation_failure_returns_500 demoEnv 864000 demoStore
      ⟨some aliceRefreshToken, none, none⟩ aliceRefreshToken rfl (by decide)⟩

/-- C2: the spec says Logout clears the stored refresh-token slot and that
presenting the just-cleared token to RefreshSession afterwards returns
Unauthorized.  The code's
`findByIdAndUpdate(id, { $set: { refreshToken: undefined } })` is a no-op,
because mongoose strips `undefined` keys out of updates: the slot still
holds the old token, and a subsequent RefreshSession presenting that token
succeeds with 200. -/
theorem logout_leaves_refresh_slot_and_replay_succeeds :
    logoutUser demoStore 1 = (.ok (), demoStore)
    ∧ (findById (logoutUser demoStore 1).2 1).map (fun u => u.refreshToken)
        = some (some aliceRefreshToken)
    ∧ isOk (refreshAccessToken demoEnv 10 (logoutUser demoStore 1).2
        ⟨some aliceRefreshToken, none, none⟩).1 = true := by
  decide

/-- C4: the spec says two concurrent RefreshSession calls presenting the
same still-valid stored refresh token end with exactly one 200 and one 401,
because the slot update is an atomic compare-and-swap on the old value.  In
the code the validation read (`findById` + equality check) and the write
(`user.save()` in generateAccessAndRefreshToken) are separate unconditional
database operations, so in the schedule validate₁, validate₂, commit₁,
commit₂ both calls succeed. -/
theorem concurrent_refreshes_can_both_succeed :
    raceSucceeded raceFinal.p1 = true ∧ raceSucceeded raceFinal.p2 = true := by
  decide

/-- Counterexample for C5: login with alice's registered email and a wrong
password returns ApiError(400, "Invalid user credentials"), not the 401 the
claim states. -/
theorem login_wrong_password_returns_400_not_401 :
    loginUser demoEnv 0 demoStore
        ⟨some "alice", some "alice@example.com", some "WrongPw"⟩
      = (.error ⟨400, "Invalid user credentials"⟩, demoStore)
    ∧ (400 : Nat) ≠ 401 := by
  decide

/-- C5 (amended): a Login request carrying an existing identifier and a
wrong password fails with status 400 ("Invalid user credentials") and the
store — in particular the user's refresh-token slot — is unchanged. -/
theorem login_wrong_password_400_and_slot_unchanged
    (env : Env) (now : Nat) (store : Store) (un : Option String)
    (em pw : String) (u : UserRec)
    (hem : em ≠ "") (hpw : pw ≠ "")
    (hfind : store.find? (loginQueryMatches un (some em)) = some u)
    (hbad : bcryptCompare pw u.password = false) :
    loginUser env now store ⟨un, some em, some pw⟩ =
      (.error ⟨400, "Invalid user credentials"⟩, store) := by
  have he : truthy (some em) = true := by simp [truthy, hem]
  have hp : truthy (some pw) = true := by simp [truthy, hpw]
  simp only [loginUser, he, hp, Bool.not_true, Bool.or_self, Bool.false_eq_true,
    if_false, hfind, Option.getD_some, hbad, Bool.not_false, ite_true]

/-- Witness for C5: alice's email with password "WrongPw". -/
theorem login_wrong_password_400_and_slot_unchanged_witness :
    ("alice@example.com" ≠ "") ∧
    loginUser demoEnv 0 demoStore
        ⟨some "alice", some "alice@example.com", some "WrongPw"⟩
      = (.error ⟨400, "Invalid user credentials"⟩, demoStore) :=
  ⟨by decide,
    login_wrong_password_400_and_slot_unchanged demoEnv 0 demoStore
      (some "alice") "alice@example.com" "WrongPw" alice
      (by decide) (by decide) rfl (by decide)⟩

/-- C9: with no `refreshToken` cookie, refreshAccessToken reads its
fallback from the request-body field `refreshAccessToken` only: a body
field named `refreshToken` is never consulted, so a request carrying the
token only under `refreshToken` in the body fails with
ApiError(401, "Refresh token is required"), while a body
`refreshAccessToken` field is picked up. -/
theorem refresh_reads_body_field_refreshAccessToken_only
    (env : Env) (now : Nat) (store : Store) (bodyRT : Option Token) :
    incomingRefreshToken ⟨none, bodyRT, none⟩ = none
    ∧ refreshAccessToken env now store ⟨none, bodyRT, none⟩
        = (.error ⟨401, "Refresh token is required"⟩, store)
    ∧ (∀ t, incomingRefreshToken ⟨none, bodyRT, some t⟩ = some t) :=
  ⟨rfl, rfl, fun _ => rfl⟩

/-- C3: the spec says a refresh token already used in a successful
RefreshSession can never be used again — the stored slot now holds the
newly issued token and the handler demands exact equality with the stored
value — and that the replay returns Unauthorized.  The replay-rejection
mechanism is exactly as described (the second presentation never succeeds),
but the response status is 500, not 401, because the handler's catch-all
replaces its own ApiError(401). -/
theorem refresh_replay_never_succeeds_but_returns_500
    (env : Env) (t1 t2 : Nat) (store store' : Store)
    (req1 req2 : RefreshReq) (tok : Token) (out : RefreshOut)
    (h1 : incomingRefreshToken req1 = some tok)
    (hok : refreshAccessToken env t1 store req1 = (.ok out, store'))
    (h2 : incomingRefreshToken req2 = some tok)
    (hne : tok ≠ out.refreshToken) :
    (∃ v, findById store' v.uid = some v ∧ v.refreshToken = some out.refreshToken)
    ∧ refreshAccessToken env t2 store' req2 =
        (.error ⟨500, "Something went wrong while refreshing access token"⟩, store') := by
  unfold refreshAccessToken at hok
  rw [h1] at hok
  have htry : refreshTry env t1 store tok = .ok (out, store') := by
    cases hr : refreshTry env t1 store tok with
    | ok v =>
      obtain ⟨o, s⟩ := v
      simp only [hr, Prod.mk.injEq, Except.ok.injEq] at hok
      rw [hok.1, hok.2]
    | error e =>
      simp only [hr] at hok
      exact absurd hok (by simp)
  obtain ⟨payload, iat, expn, u, htok, hlt, hf, hstored, hout, hstore'⟩ :=
    refreshTry_ok_inv htry
  have huid : u.uid = payload.uid := findById_some_uid hf
  have hid : findById store u.uid = some u := by rw [huid]; exact hf
  have hsnap : findById store' u.uid
      = some { u with refreshToken := some (genRefreshToken env t1 u) } := by
    rw [hstore']
    exact findById_saveUser_self (w := u) hid
  constructor
  · exact ⟨{ u with refreshToken := some (genRefreshToken env t1 u) }, hsnap, by rw [hout]⟩
  · unfold refreshAccessToken
    rw [h2]
    cases hr2 : refreshTry env t2 store' tok with
    | error e => simp [hr2]
    | ok v =>
      exfalso
      obtain ⟨o2, s2⟩ := v
      obtain ⟨payload2, iat2, expn2, u2, htok2, hlt2, hf2, hstored2, hout2, hstore2⟩ :=
        refreshTry_ok_inv hr2
      have hpeq : payload2 = payload := by
        rw [htok] at htok2
        injection htok2 with hp hs hi he
        exact hp.symm
      have hfsnap : findById store' payload.uid
          = some { u with refreshToken := some (genRefreshToken env t1 u) } := by
        rw [← huid]; exact hsnap
      rw [hpeq, hfsnap] at hf2
      injection hf2 with hu2
      rw [← hu2] at hstored2
      have hgen : some (genRefreshToken env t1 u) = some tok := hstored2
      apply hne
      rw [hout]
      exact (Option.some.inj hgen).symm

/-- The new token pair issued when alice's token is refreshed at clock 5. -/
def demoRefreshOut1 : RefreshOut :=
  ⟨genAccessToken demoEnv 5 alice, genRefreshToken demoEnv 5 alice⟩

/-- The store after that first refresh: alice's slot holds the rotated
token. -/
def demoStoreAfterRefresh : Store :=
  saveUser demoStore { alice with refreshToken := some (genRefreshToken demoEnv 5 alice) }

/-- Witness for C3: alice's token is refreshed at clock 5; replaying the
old token at clock 6 fails (with status 500). -/
theorem refresh_replay_never_succeeds_but_returns_500_witness :
    aliceRefreshToken ≠ demoRefreshOut1.refreshToken
    ∧ ((∃ v, findById demoStoreAfterRefresh v.uid = some v
          ∧ v.refreshToken = some demoRefreshOut1.refreshToken)
       ∧ refreshAccessToken demoEnv 6 demoStoreAfterRefresh
            ⟨some aliceRefreshToken, none, none⟩
          = (.error ⟨500, "Something went wrong while refreshing access token"⟩,
             demoStoreAfterRefresh)) :=
  ⟨by decide,
    refresh_replay_never_succeeds_but_returns_500 demoEnv 5 6 demoStore
      demoStoreAfterRefresh ⟨some aliceRefreshToken, none, none⟩
      ⟨some aliceRefreshToken, none, none⟩ aliceRefreshToken demoRefreshOut1
      rfl (by decide) rfl (by decide)⟩

/-- Counterexample for C6: a request supplying alice's registered username
and her correct password, but no email, does not log in: it fails with
ApiError(400, "Email is required"). -/
theorem login_with_username_only_fails_400 :
    loginUser demoEnv 0 demoStore ⟨some "alice", none, some "Secret123*"⟩
      = (.error ⟨400, "Email is required"⟩, demoStore)
    ∧ isOk (loginUser demoEnv 0 demoStore ⟨some "alice", none, some "Secret123*"⟩).1
        = false := by
  decide

/-- C6 (amended): Login requires the `email` (and `password`) body fields —
a request without an email fails 400 regardless of username.  When email
and password are supplied, the user is looked up with the
`$or: [{username}, {email}]` query (an absent username clause is stripped
by mongoose and matches every record); the request fails NotFound exactly
when that query matches no stored user, and succeeds when the matched
user's password verifies. -/
theorem login_requires_email_and_lookup_semantics
    (env : Env) (now : Nat) (store : Store) (un : Option String) (em pw : String)
    (hem : em ≠ "") (hpw : pw ≠ "") :
    (∀ requ : LoginReq, truthy requ.email = false →
        loginUser env now store requ = (.error ⟨400, "Email is required"⟩, store))
    ∧ ((loginUser env now store ⟨un, some em, some pw⟩).1
          = .error ⟨404, "User not found"⟩
        ↔ store.find? (loginQueryMatches un (some em)) = none)
    ∧ (∀ u : UserRec, store.find? (loginQueryMatches un (some em)) = some u →
        findById store u.uid = some u → bcryptCompare pw u.password = true →
        isOk (loginUser env now store ⟨un, some em, some pw⟩).1 = true) := by
  have he : truthy (some em) = true := by simp [truthy, hem]
  have hp : truthy (some pw) = true := by simp [truthy, hpw]
  refine ⟨?_, ?_, ?_⟩
  · intro requ h
    simp only [loginUser, h, Bool.not_false, Bool.true_or, if_true]
  · cases hf : store.find? (loginQueryMatches un (some em)) with
    | none =>
      have hres : loginUser env now store ⟨un, some em, some pw⟩
          = (.error ⟨404, "User not found"⟩, store) := by
        simp only [loginUser, he, hp, Bool.not_true, Bool.or_self, Bool.false_eq_true,
          if_false, hf]
      simp [hres]
    | some u =>
      apply iff_of_false
      · intro habs
        simp only [loginUser, he, hp, Bool.not_true, Bool.or_self, Bool.false_eq_true,
          if_false, hf, Option.getD_some] at habs
        by_cases hb : bcryptCompare pw u.password
        · simp only [hb, Bool.not_true, Bool.false_eq_true, if_false,
            generateAccessAndRefreshToken] at habs
          cases hb2 : findById store u.uid with
          | none => simp [hb2] at habs
          | some w =>
            simp only [hb2] at habs
            cases hb3 : findById
                (saveUser store { w with refreshToken := some (genRefreshToken env now w) })
                u.uid with
            | none => simp [hb3] at habs
            | some w' => simp [hb3] at habs
        · simp [hb] at habs
      · simp
  · intro u hfind hid hgood
    rw [loginUser_ok_of hem hpw hfind hid hgood]
    rfl

/-- Witness for C6: a username-only request hits the email gate; with
alice's email the lookup finds her and the login succeeds. -/
theorem login_requires_email_and_lookup_semantics_witness :
    loginUser demoEnv 0 demoStore ⟨some "bob", none, some "pw"⟩
      = (.error ⟨400, "Email is required"⟩, demoStore)
    ∧ ((loginUser demoEnv 0 demoStore
          ⟨some "alice", some "alice@example.com", some "Secret123*"⟩).1
        = .error ⟨404, "User not found"⟩
        ↔ demoStore.find?
            (loginQueryMatches (some "alice") (some "alice@example.com")) = none)
    ∧ isOk (loginUser demoEnv 0 demoStore
        ⟨some "alice", some "alice@example.com", some "Secret123*"⟩).1 = true := by
  have h := login_requires_email_and_lookup_semantics demoEnv 0 demoStore
    (some "alice") "alice@example.com" "Secret123*" (by decide) (by decide)
  exact ⟨h.1 ⟨some "bob", none, some "pw"⟩ rfl, h.2.1, h.2.2 alice rfl rfl (by decide)⟩

/-- C7: for a registered user and correct credentials, Login returns an
access+refresh pair, and AuthenticateRequest presented with that access
token (before it expires) resolves to the same user's id: the identity it
attaches is exactly the stored user's public projection, whose id is the
id embedded at issuance. -/
theorem login_then_authenticate_resolves_same_uid
    (env : Env) (now t2 : Nat) (store : Store) (u : UserRec) (pw : String)
    (hem : u.email ≠ "") (hpw : pw ≠ "")
    (hfind : store.find? (loginQueryMatches (some u.username) (some u.email)) = some u)
    (hid : findById store u.uid = some u)
    (hgood : bcryptCompare pw u.password = true)
    (ht : t2 < now + env.accessTokenExpiry) :
    ∃ out store',
      loginUser env now store ⟨some u.username, some u.email, some pw⟩ = (.ok out, store')
      ∧ verifyJWT env t2 store' ⟨some out.accessToken, none⟩ = .ok (publicOf u)
      ∧ (publicOf u).uid = u.uid := by
  have hlog := @loginUser_ok_of env now store (some u.username) u.email pw u
    hem hpw hfind hid hgood
  refine ⟨_, _, hlog, ?_, rfl⟩
  have hnotexp : ¬ (now + env.accessTokenExpiry ≤ t2) := Nat.not_le.mpr ht
  have hsnap : findById
      (saveUser store { u with refreshToken := some (genRefreshToken env now u) }) u.uid
      = some { u with refreshToken := some (genRefreshToken env now u) } :=
    findById_saveUser_self (w := u) hid
  simp [verifyJWT, verifyJWTTry, genAccessToken, jwtVerify, hnotexp, hsnap, publicOf]

/-- Witness for C7: alice logs in at clock 0 and is authenticated with the
returned access token at clock 100. -/
theorem login_then_authenticate_resolves_same_uid_witness :
    ∃ out store',
      loginUser demoEnv 0 demoStore
          ⟨some "alice", some "alice@example.com", some "Secret123*"⟩ = (.ok out, store')
      ∧ verifyJWT demoEnv 100 store' ⟨some out.accessToken, none⟩ = .ok (publicOf alice)
      ∧ (publicOf alice).uid = alice.uid :=
  login_then_authenticate_resolves_same_uid demoEnv 0 100 demoStore alice "Secret123*"
    (by decide) (by decide) rfl rfl (by decide) (by decide)

/-- C8: an access token whose expiry has elapsed is rejected by
AuthenticateRequest with 401, even though it is signed with the correct
access-token secret. -/
theorem expired_access_token_rejected_401
    (env : Env) (now : Nat) (store : Store) (payload : Claims) (iat expn : Nat)
    (hexp : expn ≤ now) :
    verifyJWT env now store
        ⟨some (.signed payload env.accessTokenSecret iat expn), none⟩
      = .error ⟨401, "Not authorized, token failed"⟩ := by
  simp [verifyJWT, verifyJWTTry, jwtVerify, hexp]

/-- Witness for C8: a correctly signed access token with expiry 900
presented at clock 1000. -/
theorem expired_access_token_rejected_401_witness :
    (900 : Nat) ≤ 1000
    ∧ verifyJWT demoEnv 1000 demoStore
        ⟨some (.signed ⟨1, some "alice@example.com", some "alice", some "Alice Singh"⟩
          "access-secret" 0 900), none⟩
      = .error ⟨401, "Not authorized, token failed"⟩ :=
  ⟨by decide,
    expired_access_token_rejected_401 demoEnv 1000 demoStore
      ⟨1, some "alice@example.com", some "alice", some "Alice Singh"⟩ 0 900 (by decide)⟩

/-- C10: neither the user profile returned by Login nor the identity
attached by AuthenticateRequest carries the `password` or `refreshToken`
fields: both are the `select("-password -refreshToken")` projection of a
stored record, and that projection is insensitive to the values of the two
sensitive fields. -/
theorem auth_outputs_exclude_sensitive_fields
    (env : Env) (now t2 : Nat) (store store' : Store) (req : LoginReq)
    (areq : AuthReq) (out : LoginOut) (p : PublicUser)
    (hlog : loginUser env now store req = (.ok out, store'))
    (hver : verifyJWT env t2 store' areq = .ok p) :
    (∀ (u : UserRec) (pw : String) (rt : Option Token),
        publicOf { u with password := pw, refreshToken := rt } = publicOf u)
    ∧ (∃ v, findById store' out.user.uid = some v ∧ out.user = publicOf v)
    ∧ (∃ v, findById store' p.uid = some v ∧ p = publicOf v) :=
  ⟨fun _ _ _ => rfl, loginUser_ok_user_inv hlog, verifyJWT_ok_inv hver⟩

/-- Login response payload for alice at clock 0. -/
def aliceLoginOut : LoginOut :=
  ⟨publicOf alice, genAccessToken demoEnv 0 alice, genRefreshToken demoEnv 0 alice⟩

/-- The store after alice's login at clock 0. -/
def demoStoreAfterLogin : Store :=
  saveUser demoStore { alice with refreshToken := some (genRefreshToken demoEnv 0 alice) }

/-- Witness for C10: alice logs in and is then authenticated; both outputs
are sensitive-field-free projections of her stored record. -/
theorem auth_outputs_exclude_sensitive_fields_witness :
    publicOf { alice with password := "x", refreshToken := none } = publicOf alice
    ∧ (∃ v, findById demoStoreAfterLogin aliceLoginOut.user.uid = some v
          ∧ aliceLoginOut.user = publicOf v)
    ∧ (∃ v, findById demoStoreAfterLogin (publicOf alice).uid = some v
          ∧ publicOf alice = publicOf v) := by
  have h := auth_outputs_exclude_sensitive_fields demoEnv 0 100 demoStore
    demoStoreAfterLogin ⟨some "alice", some "alice@example.com", some "Secret123*"⟩
    ⟨some aliceLoginOut.accessToken, none⟩ aliceLoginOut (publicOf alice)
    (by decide) (by decide)
  exact ⟨h.1 alice "x" none, h.2.1, h.2.2⟩

end PlaySphere
